import Mathlib

/-!
# Verification of the Registry Link Manager (`gemini_enterprise_manager.py`)

Shallow embedding of the configuration-store and registry-linking logic of
`GeminiEnterpriseManager`:

* the `.env`-style configuration file is a list of lines (each line a `String`
  without its trailing newline);
* the in-memory environment snapshot (`self.env_vars`) is an association list
  from keys to values, with dictionary semantics (at most one binding per key,
  first binding wins on lookup, in-place replacement on update);
* the network is abstracted as the optional outcome of the single HTTP request
  an operation may issue (`none` models a transport error or a token-acquisition
  failure; a response with a 4xx/5xx status is turned into `none` by the
  `raise_for_status` step of `_make_request`);
* each operation returns its outcome (one constructor per distinct exit path of
  the Python method), the resulting manager state, and the list of
  `(method, url)` HTTP requests it attempted.
-/

namespace GEM

/-! ## Python-style character/whitespace helpers -/

/-- The whitespace characters stripped by Python's `str.strip()`. -/
def pyWS (c : Char) : Bool :=
  c == ' ' || c == '\t' || c == '\n' || c == '\r' || c == '\x0b' || c == '\x0c'

/-- Strip leading whitespace from a character list. -/
def trimL (l : List Char) : List Char := l.dropWhile pyWS

/-- Strip trailing whitespace from a character list. -/
def trimR (l : List Char) : List Char := (l.reverse.dropWhile pyWS).reverse

/-- Python `str.strip()` on a character list. -/
def pyStripChars (l : List Char) : List Char := trimR (trimL l)

/-- The characters before the first `'='` (Python `line.split("=", 1)[0]`). -/
def keyPart (l : List Char) : List Char := l.takeWhile (fun c => c != '=')

/-- The characters after the first `'='` (Python `line.split("=", 1)[1]`). -/
def valPart (l : List Char) : List Char := (l.dropWhile (fun c => c != '=')).drop 1

/-- Trailing path segment: Python `s.split("/")[-1]`. -/
def lastSeg (s : String) : String :=
  ⟨(s.data.reverse.takeWhile (fun c => c != '/')).reverse⟩

/-! ## The persisted configuration file (`_update_env_var`) -/

/-- Whether a line is considered by `_update_env_var`'s search loop:
`line.strip() and not line.strip().startswith("#") and "=" in line`. -/
def isContentLine (line : String) : Bool :=
  !(pyStripChars line.data).isEmpty &&
  !((pyStripChars line.data).head? == some '#') &&
  line.data.any (fun c => c == '=')

/-- Whether `_update_env_var` treats `line` as an existing binding of `key`:
the line is a content line and `line.split("=", 1)[0].strip() == key`. -/
def lineKeyMatches (key line : String) : Bool :=
  isContentLine line && (pyStripChars (keyPart line.data) == key.data)

/-- The file transformation performed by `_update_env_var`: replace the first
line binding `key` with `key=value`, or append `key=value` if no line binds
`key`.  (A missing file is the empty line list: `touch` creates it empty.) -/
def updateLines (key value : String) : List String → List String
  | [] => [key ++ "=" ++ value]
  | l :: ls =>
    if lineKeyMatches key l then (key ++ "=" ++ value) :: ls
    else l :: updateLines key value ls

/-- Observer: the value stored for `key` in the file, read off the first line
binding `key` (the same matching criterion and search order that
`_update_env_var` itself uses); `none` when no line binds `key`. -/
def lookupLine (key : String) : List String → Option String
  | [] => none
  | l :: ls =>
    if lineKeyMatches key l then some ⟨valPart l.data⟩ else lookupLine key ls

/-! ## The in-memory environment snapshot (`self.env_vars`) -/

/-- The in-memory key/value snapshot, with Python-dict semantics. -/
abbrev Env := List (String × String)

/-- Dictionary lookup (`env_vars.get(k)`): `none` when the key is absent. -/
def envGet : Env → String → Option String
  | [], _ => none
  | (k', v') :: rest, k => if k' == k then some v' else envGet rest k

/-- Dictionary update (`env_vars[k] = v`): replace the binding in place, or
append a fresh one. -/
def envSet : Env → String → String → Env
  | [], k, v => [(k, v)]
  | (k', v') :: rest, k, v =>
    if k' == k then (k, v) :: rest else (k', v') :: envSet rest k v

/-- Python truthiness of an optional string: `None` and `""` are falsy. -/
def truthy : Option String → Bool
  | none => false
  | some s => s != ""

/-! ## Manager state and environment validation -/

/-- The manager's state: the persisted `.env` file (as lines) and the in-memory
environment snapshot loaded at construction. -/
structure MState where
  fileLines : List String
  env : Env
deriving DecidableEq

/-- Embedding of `_update_env_var` as a state transformer: rewrites the file and updates the
in-memory snapshot. -/
def updateEnvVar (st : MState) (key value : String) : MState :=
  ⟨updateLines key value st.fileLines, envSet st.env key value⟩

/-- The required variables checked by `_validate_environment`. -/
def requiredVars : List String :=
  ["GOOGLE_CLOUD_PROJECT", "GCP_PROJECT_NUMBER", "AGENTSPACE_APP_ID",
   "AGENT_ENGINE_RESOURCE_NAME", "GOOGLE_CLOUD_LOCATION"]

/-- Embedding of `_validate_environment`: `(not missing, missing)` where `missing` collects
the required variables that are absent or empty. -/
def validateEnvironment (e : Env) : Bool × List String :=
  let missing := requiredVars.filter (fun v => !truthy (envGet e v))
  (missing.isEmpty, missing)

/-! ## HTTP layer -/

/-- The observable part of an HTTP response: its status code and the `name`
field of its JSON body (the only body field the link path reads). -/
structure HttpResponse where
  status : Nat
  name : String
deriving DecidableEq

/-- Embedding of `_make_request`: the raw network outcome (`none` = transport error or no
access token) filtered through `response.raise_for_status()`, which raises on
4xx/5xx statuses; the raised error is caught and turned into `None`. -/
def makeRequest (net : Option HttpResponse) : Option HttpResponse :=
  match net with
  | none => none
  | some r => if 400 ≤ r.status ∧ r.status < 600 then none else some r

/-- Fixed API base (`DISCOVERY_ENGINE_API_BASE`). -/
def DISCOVERY_ENGINE_API_BASE : String := "https://discoveryengine.googleapis.com/v1alpha"

/-- Embedding of `_get_agent_api_url`.  The two mandatory lookups are `env_vars[...]`
subscriptions in the source; every operation that builds a URL with them either
validated their presence first or is given them by hypothesis in the theorems
below, so they are modelled with a `""` default. -/
def getAgentApiUrl (e : Env) (agentId : Option String) : String :=
  let projectNumber := (envGet e "GCP_PROJECT_NUMBER").getD ""
  let appId := (envGet e "AGENTSPACE_APP_ID").getD ""
  let collection := (envGet e "AGENTSPACE_COLLECTION").getD "default_collection"
  let assistant := (envGet e "AGENTSPACE_ASSISTANT").getD "default_assistant"
  let url := DISCOVERY_ENGINE_API_BASE ++ "/projects/" ++ projectNumber ++
    "/locations/global/collections/" ++ collection ++ "/engines/" ++ appId ++
    "/assistants/" ++ assistant ++ "/agents"
  if truthy agentId then url ++ "/" ++ agentId.getD "" else url

/-! ## Operations -/

/-- The distinct exit paths of `link_agent`. -/
inductive LinkOutcome where
  | success
  | configError (missing : List String)
  | alreadyLinked
  | requestFailed
deriving DecidableEq

/-- The distinct exit paths of `unlink_agent`.  `notLinked` is the "No agent
linked." early return, which returns `True`. -/
inductive UnlinkOutcome where
  | success
  | notLinked
  | cancelled
  | requestFailed
deriving DecidableEq

/-- The distinct exit paths of `verify_agent`. -/
inductive VerifyOutcome where
  | success
  | configError (missing : List String)
  | notLinked
  | requestFailed
deriving DecidableEq

/-- Result of `link_agent`: outcome, final state, attempted requests. -/
structure LinkResult where
  outcome : LinkOutcome
  state : MState
  requests : List (String × String)
deriving DecidableEq

/-- Result of `unlink_agent`. -/
structure UnlinkResult where
  outcome : UnlinkOutcome
  state : MState
  requests : List (String × String)
deriving DecidableEq

/-- Result of `verify_agent`. -/
structure VerifyResult where
  outcome : VerifyOutcome
  state : MState
  requests : List (String × String)
deriving DecidableEq

/-- The boolean `link_agent` returns. -/
def linkOk : LinkOutcome → Bool
  | .success => true
  | _ => false

/-- The boolean `unlink_agent` returns (`True` also on the not-linked no-op). -/
def unlinkOk : UnlinkOutcome → Bool
  | .success => true
  | .notLinked => true
  | _ => false

/-- The boolean `verify_agent` returns. -/
def verifyOk : VerifyOutcome → Bool
  | .success => true
  | _ => false

/-- The in-memory override application at the top of `link_agent`: each of the
three optional arguments overwrites its key only when truthy. -/
def applyOverride (e : Env) (key : String) (v : Option String) : Env :=
  match v with
  | some s => if s != "" then envSet e key s else e
  | none => e

/-- All three overrides of `link_agent`, in source order. -/
def applyAll (e : Env) (displayName description toolDescription : Option String) : Env :=
  applyOverride
    (applyOverride
      (applyOverride e "AGENT_DISPLAY_NAME" displayName)
      "AGENT_DESCRIPTION" description)
    "AGENT_TOOL_DESCRIPTION" toolDescription

/-- Embedding of `link_agent`. -/
def linkAgent (st : MState) (displayName description toolDescription : Option String)
    (net : Option HttpResponse) : LinkResult :=
  if !(validateEnvironment st.env).1 then
    ⟨.configError (validateEnvironment st.env).2, st, []⟩
  else if truthy (envGet st.env "AGENTSPACE_AGENT_ID") then
    ⟨.alreadyLinked, st, []⟩
  else
    let env1 := applyAll st.env displayName description toolDescription
    let st1 : MState := ⟨st.fileLines, env1⟩
    let apiUrl := getAgentApiUrl env1 none
    match makeRequest net with
    | some r =>
      if r.status == 200 then
        let agentName := r.name
        let agentId := if agentName != "" then lastSeg agentName else ""
        if agentId != "" then
          ⟨.success, updateEnvVar st1 "AGENTSPACE_AGENT_ID" agentId, [("POST", apiUrl)]⟩
        else
          ⟨.success, st1, [("POST", apiUrl)]⟩
      else ⟨.requestFailed, st1, [("POST", apiUrl)]⟩
    | none => ⟨.requestFailed, st1, [("POST", apiUrl)]⟩

/-- Embedding of `unlink_agent`; `confirm` is the answer the operator would give to the
interactive prompt (consulted only when `force` is off). -/
def unlinkAgent (st : MState) (force confirm : Bool) (net : Option HttpResponse) : UnlinkResult :=
  let agentId := (envGet st.env "AGENTSPACE_AGENT_ID").getD ""
  if agentId == "" then ⟨.notLinked, st, []⟩
  else if !force && !confirm then ⟨.cancelled, st, []⟩
  else
    let apiUrl := getAgentApiUrl st.env (some agentId)
    match makeRequest net with
    | some r =>
      if r.status == 200 || r.status == 204 then
        ⟨.success, updateEnvVar st "AGENTSPACE_AGENT_ID" "", [("DELETE", apiUrl)]⟩
      else ⟨.requestFailed, st, [("DELETE", apiUrl)]⟩
    | none => ⟨.requestFailed, st, [("DELETE", apiUrl)]⟩

/-- Embedding of `verify_agent`. -/
def verifyAgent (st : MState) (net : Option HttpResponse) : VerifyResult :=
  if !(validateEnvironment st.env).1 then
    ⟨.configError (validateEnvironment st.env).2, st, []⟩
  else
    let agentId := (envGet st.env "AGENTSPACE_AGENT_ID").getD ""
    if agentId == "" then ⟨.notLinked, st, []⟩
    else
      let apiUrl := getAgentApiUrl st.env (some agentId)
      match makeRequest net with
      | some r =>
        if r.status == 200 then ⟨.success, st, [("GET", apiUrl)]⟩
        else ⟨.requestFailed, st, [("GET", apiUrl)]⟩
      | none => ⟨.requestFailed, st, [("GET", apiUrl)]⟩

/-- Embedding of `display_url`: pure formatting, `none` when a needed key is absent/empty. -/
def displayUrl (st : MState) : Option String :=
  let projectId := (envGet st.env "GOOGLE_CLOUD_PROJECT").getD ""
  let appId := (envGet st.env "AGENTSPACE_APP_ID").getD ""
  if projectId == "" || appId == "" then none
  else
    some ("https://console.cloud.google.com/gen-ai-studio/agentspace/apps/" ++ appId ++
      "?project=" ++ projectId)

/-- Embedding of `display_url` viewed as a state transformer: it only reads the state. -/
def displayUrlSt (st : MState) : Option String × MState := (displayUrl st, st)

/-- A well-formed configuration key: nonempty, not starting with `#`, and free
of whitespace and `=`.  Every key this program writes satisfies it. -/
def goodKey (k : String) : Bool :=
  !k.data.isEmpty && !(k.data.head? == some '#') &&
  k.data.all (fun c => !pyWS c && c != '=')

/-! ## CLI commands (process exit codes) -/

/-- The `link` subcommand: exit 1 when `link_agent` returns `False`. -/
def linkCommand (st : MState) (displayName description toolDescription : Option String)
    (net : Option HttpResponse) : Nat :=
  if linkOk (linkAgent st displayName description toolDescription net).outcome then 0 else 1

/-- The `unlink` subcommand. -/
def unlinkCommand (st : MState) (force confirm : Bool) (net : Option HttpResponse) : Nat :=
  if unlinkOk (unlinkAgent st force confirm net).outcome then 0 else 1

/-- The `verify` subcommand. -/
def verifyCommand (st : MState) (net : Option HttpResponse) : Nat :=
  if verifyOk (verifyAgent st net).outcome then 0 else 1

/-- The `url` subcommand: it calls `display_url` and never raises
`typer.Exit`, so it exits 0 regardless of `display_url`'s outcome. -/
def urlCommand (st : MState) : Nat :=
  let _ := displayUrl st
  0

/-! ## Helper lemmas: character lists -/

theorem takeWhile_append_of (p : Char → Bool) (kd : List Char) (c : Char) (vd : List Char)
    (hk : ∀ x ∈ kd, p x = true) (hc : p c = false) :
    (kd ++ c :: vd).takeWhile p = kd := by
  induction kd with
  | nil => simp [List.takeWhile_cons, hc]
  | cons a t ih =>
    have ha : p a = true := hk a (List.mem_cons_self a t)
    simp only [List.cons_append, List.takeWhile_cons, ha, if_true]
    rw [ih (fun x hx => hk x (List.mem_cons_of_mem a hx))]

theorem dropWhile_append_of (p : Char → Bool) (kd : List Char) (c : Char) (vd : List Char)
    (hk : ∀ x ∈ kd, p x = true) (hc : p c = false) :
    (kd ++ c :: vd).dropWhile p = c :: vd := by
  induction kd with
  | nil => simp [List.dropWhile_cons, hc]
  | cons a t ih =>
    have ha : p a = true := hk a (List.mem_cons_self a t)
    simp only [List.cons_append, List.dropWhile_cons, ha, if_true]
    exact ih (fun x hx => hk x (List.mem_cons_of_mem a hx))

theorem dropWhile_append_last (p : Char → Bool) (l : List Char) (a : Char) (h : p a = false) :
    (l ++ [a]).dropWhile p = l.dropWhile p ++ [a] := by
  induction l with
  | nil => simp [List.dropWhile_cons, h]
  | cons b t ih =>
    cases hb : p b with
    | true => simp [List.dropWhile_cons, hb, ih]
    | false => simp [List.dropWhile_cons, hb]

theorem dropWhile_eq_self (p : Char → Bool) (l : List Char) (h : ∀ c ∈ l, p c = false) :
    l.dropWhile p = l := by
  cases l with
  | nil => rfl
  | cons a t => exact List.dropWhile_cons_of_neg (by simp [h a (List.mem_cons_self a t)])

theorem trimR_cons (a : Char) (l : List Char) (h : pyWS a = false) :
    trimR (a :: l) = a :: trimR l := by
  unfold trimR
  rw [List.reverse_cons, dropWhile_append_last pyWS l.reverse a h, List.reverse_append]
  simp

theorem pyStripChars_cons (a : Char) (l : List Char) (h : pyWS a = false) :
    pyStripChars (a :: l) = a :: trimR l := by
  unfold pyStripChars trimL
  rw [List.dropWhile_cons_of_neg (by simp [h])]
  exact trimR_cons a l h

theorem pyStripChars_eq_self (l : List Char) (h : ∀ c ∈ l, pyWS c = false) :
    pyStripChars l = l := by
  unfold pyStripChars trimL trimR
  rw [dropWhile_eq_self pyWS l h,
    dropWhile_eq_self pyWS l.reverse (fun c hc => h c (List.mem_reverse.mp hc)),
    List.reverse_reverse]

theorem data_key_eq_val (k v : String) :
    (k ++ "=" ++ v).data = k.data ++ '=' :: v.data := by
  rw [String.data_append, String.data_append]
  simp

/-! ## Helper lemmas: well-formed keys and line matching -/

theorem goodKey_parts (k : String) (h : goodKey k = true) :
    k.data ≠ [] ∧ k.data.head? ≠ some '#' ∧
      (∀ c ∈ k.data, pyWS c = false ∧ (c != '=') = true) := by
  simp only [goodKey, Bool.and_eq_true, List.all_eq_true] at h
  obtain ⟨⟨h1, h2⟩, h3⟩ := h
  refine ⟨by simpa using h1, by simpa using h2, fun c hc => ?_⟩
  have := h3 c hc
  simp only [Bool.and_eq_true] at this
  exact ⟨by simpa using this.1, this.2⟩

theorem lineKeyMatches_self (k v : String) (hk : goodKey k = true) :
    lineKeyMatches k (k ++ "=" ++ v) = true := by
  obtain ⟨hne, hhash, hall⟩ := goodKey_parts k hk
  obtain ⟨a, t, hat⟩ : ∃ a t, k.data = a :: t := by
    cases hd : k.data with
    | nil => exact absurd hd hne
    | cons a t => exact ⟨a, t, rfl⟩
  have hstrip : pyStripChars ((k ++ "=" ++ v).data) = a :: trimR (t ++ '=' :: v.data) := by
    rw [data_key_eq_val, hat, List.cons_append]
    exact pyStripChars_cons a (t ++ '=' :: v.data)
      (hall a (by rw [hat]; exact List.mem_cons_self a t)).1
  have hkey : keyPart ((k ++ "=" ++ v).data) = k.data := by
    unfold keyPart
    rw [data_key_eq_val]
    exact takeWhile_append_of _ k.data '=' v.data (fun x hx => (hall x hx).2) (by decide)
  have hhead : a ≠ '#' := by
    intro hEq
    exact hhash (by rw [hat, hEq]; rfl)
  unfold lineKeyMatches isContentLine
  rw [hstrip, hkey, pyStripChars_eq_self k.data (fun c hc => (hall c hc).1)]
  simp only [data_key_eq_val, List.any_append, List.any_cons]
  simp [hhead]

theorem valPart_key_eq_val (k v : String) (hk : goodKey k = true) :
    valPart ((k ++ "=" ++ v).data) = v.data := by
  obtain ⟨_, _, hall⟩ := goodKey_parts k hk
  unfold valPart
  rw [data_key_eq_val,
    dropWhile_append_of _ k.data '=' v.data (fun x hx => (hall x hx).2) (by decide)]
  rfl

theorem lineKeyMatches_other (k k' v : String) (hk : goodKey k = true) (hne : k' ≠ k) :
    lineKeyMatches k' (k ++ "=" ++ v) = false := by
  obtain ⟨_, _, hall⟩ := goodKey_parts k hk
  have hkey : keyPart ((k ++ "=" ++ v).data) = k.data := by
    unfold keyPart
    rw [data_key_eq_val]
    exact takeWhile_append_of _ k.data '=' v.data (fun x hx => (hall x hx).2) (by decide)
  unfold lineKeyMatches
  rw [hkey, pyStripChars_eq_self k.data (fun c hc => (hall c hc).1)]
  have : (k.data == k'.data) = false := by
    cases hEq : k.data == k'.data with
    | false => rfl
    | true =>
      exact absurd (String.ext (eq_of_beq hEq)).symm hne
  rw [this, Bool.and_false]

theorem lineKeyMatches_unique (k k' line : String)
    (h : lineKeyMatches k line = true) (hne : k' ≠ k) :
    lineKeyMatches k' line = false := by
  unfold lineKeyMatches at h ⊢
  rw [Bool.and_eq_true] at h
  have hkd : pyStripChars (keyPart line.data) = k.data := eq_of_beq h.2
  cases hEq : pyStripChars (keyPart line.data) == k'.data with
  | false => rw [Bool.and_false]
  | true =>
    have : k.data = k'.data := by rw [← hkd]; exact eq_of_beq hEq
    exact absurd (String.ext this).symm hne

theorem lineKeyMatches_comment (k line : String)
    (h : (pyStripChars line.data).head? = some '#') :
    lineKeyMatches k line = false := by
  unfold lineKeyMatches isContentLine
  rw [h]
  simp

/-! ## Helper lemmas: the file transformation -/

theorem lookupLine_update_self (k v : String) (ls : List String) (hk : goodKey k = true) :
    lookupLine k (updateLines k v ls) = some v := by
  have hval : (⟨valPart (k.data ++ '=' :: v.data)⟩ : String) = v := by
    have hv := valPart_key_eq_val k v hk
    rw [data_key_eq_val] at hv
    rw [hv]
  induction ls with
  | nil =>
    simp [updateLines, lookupLine, lineKeyMatches_self k v hk, hval]
  | cons l t ih =>
    unfold updateLines
    cases hm : lineKeyMatches k l with
    | true => simp [lookupLine, lineKeyMatches_self k v hk, hval]
    | false =>
      simp only [Bool.false_eq_true, if_false]
      unfold lookupLine
      rw [hm]
      simpa using ih

theorem lookupLine_update_ne (k k' v : String) (ls : List String)
    (hk : goodKey k = true) (hne : k' ≠ k) :
    lookupLine k' (updateLines k v ls) = lookupLine k' ls := by
  induction ls with
  | nil =>
    simp [updateLines, lookupLine, lineKeyMatches_other k k' v hk hne]
  | cons l t ih =>
    unfold updateLines
    cases hm : lineKeyMatches k l with
    | true =>
      simp only [if_true]
      unfold lookupLine
      rw [lineKeyMatches_other k k' v hk hne,
        lineKeyMatches_unique k k' l hm hne]
      simp
    | false =>
      simp only [Bool.false_eq_true, if_false]
      unfold lookupLine
      cases hm' : lineKeyMatches k' l with
      | true => simp
      | false => simpa using ih

/-! ## Helper lemmas: the environment snapshot -/

theorem envGet_set_self (e : Env) (k v : String) : envGet (envSet e k v) k = some v := by
  induction e with
  | nil => simp [envSet, envGet]
  | cons p rest ih =>
    obtain ⟨k', v'⟩ := p
    unfold envSet
    cases h : k' == k with
    | true => simp [envGet]
    | false =>
      simp only [Bool.false_eq_true, if_false]
      unfold envGet
      rw [h]
      simpa using ih

theorem envGet_set_ne (e : Env) (k v k' : String) (h : k' ≠ k) :
    envGet (envSet e k v) k' = envGet e k' := by
  have hkk' : (k == k') = false := by
    cases hEq : k == k' with
    | false => rfl
    | true => exact absurd (eq_of_beq hEq).symm h
  induction e with
  | nil => simp [envSet, envGet, hkk']
  | cons p rest ih =>
    obtain ⟨k0, v0⟩ := p
    unfold envSet
    cases hk0 : k0 == k with
    | true =>
      have hk0k' : (k0 == k') = false := by
        have hk0k : k0 = k := eq_of_beq hk0
        rw [hk0k]; exact hkk'
      simp only [if_true]
      unfold envGet
      rw [hkk', hk0k']
      simp
    | false =>
      simp only [Bool.false_eq_true, if_false]
      unfold envGet
      cases hk0' : k0 == k' with
      | true => simp
      | false => simpa using ih

theorem envGet_applyOverride_ne (e : Env) (key : String) (v : Option String) (k' : String)
    (h : k' ≠ key) : envGet (applyOverride e key v) k' = envGet e k' := by
  cases v with
  | none => rfl
  | some s =>
    show envGet (if (s != "") = true then envSet e key s else e) k' = envGet e k'
    by_cases hs : s = ""
    · simp [hs]
    · rw [if_pos (by simp [hs])]
      exact envGet_set_ne e key s k' h

theorem envGet_applyAll_ne (e : Env) (dn ds td : Option String) (k' : String)
    (h1 : k' ≠ "AGENT_DISPLAY_NAME") (h2 : k' ≠ "AGENT_DESCRIPTION")
    (h3 : k' ≠ "AGENT_TOOL_DESCRIPTION") :
    envGet (applyAll e dn ds td) k' = envGet e k' := by
  unfold applyAll
  rw [envGet_applyOverride_ne _ _ _ _ h3, envGet_applyOverride_ne _ _ _ _ h2,
    envGet_applyOverride_ne _ _ _ _ h1]

theorem validate_congr (e e' : Env)
    (h : ∀ k ∈ requiredVars, envGet e' k = envGet e k) :
    validateEnvironment e' = validateEnvironment e := by
  unfold validateEnvironment
  have : requiredVars.filter (fun v => !truthy (envGet e' v)) =
      requiredVars.filter (fun v => !truthy (envGet e v)) := by
    apply List.filter_congr
    intro a ha
    rw [h a ha]
  rw [this]

theorem validate_link_state (e : Env) (dn ds td : Option String) (v : String) :
    validateEnvironment (envSet (applyAll e dn ds td) "AGENTSPACE_AGENT_ID" v) =
      validateEnvironment e := by
  apply validate_congr
  intro k hk
  have hall : ∀ x ∈ requiredVars,
      x ≠ "AGENTSPACE_AGENT_ID" ∧ x ≠ "AGENT_DISPLAY_NAME" ∧
      x ≠ "AGENT_DESCRIPTION" ∧ x ≠ "AGENT_TOOL_DESCRIPTION" := by decide
  obtain ⟨ha, hb, hc, hd⟩ := hall k hk
  rw [envGet_set_ne _ _ _ _ ha, envGet_applyAll_ne _ _ _ _ _ hb hc hd]

theorem truthy_eq_false_iff (o : Option String) : truthy o = false ↔ o.getD "" = "" := by
  cases o with
  | none => simp [truthy]
  | some s => simp [truthy]

theorem getD_beq_of_truthy (o : Option String) (h : truthy o = true) :
    (o.getD "" == "") = false := by
  cases o with
  | none => exact absurd h (by simp [truthy])
  | some s =>
    have : s ≠ "" := by simpa [truthy] using h
    simpa using this

/-- Characterization of a fully successful `link_agent` run: valid environment,
not linked yet, HTTP 200, and a response name with a non-empty trailing
segment. -/
theorem linkAgent_200_eq (st : MState) (dn ds td : Option String) (n : String)
    (hvalid : (validateEnvironment st.env).1 = true)
    (hnl : truthy (envGet st.env "AGENTSPACE_AGENT_ID") = false)
    (hseg : lastSeg n ≠ "") :
    linkAgent st dn ds td (some ⟨200, n⟩) =
      ⟨.success,
       updateEnvVar ⟨st.fileLines, applyAll st.env dn ds td⟩ "AGENTSPACE_AGENT_ID" (lastSeg n),
       [("POST", getAgentApiUrl (applyAll st.env dn ds td) none)]⟩ := by
  have hn : n ≠ "" := fun h => hseg (by rw [h]; rfl)
  have hreq : makeRequest (some ⟨200, n⟩) = some ⟨200, n⟩ := by
    norm_num [makeRequest]
  unfold linkAgent
  rw [hvalid, hnl, hreq]
  simp [hn, hseg]

/-! ## Demonstration states for the concrete witnesses -/

/-- A configuration store satisfying all `link` preconditions, not yet linked,
with an empty persisted file. -/
def demoEnv : Env :=
  [("GOOGLE_CLOUD_PROJECT", "p"), ("GCP_PROJECT_NUMBER", "123"),
   ("AGENTSPACE_APP_ID", "app1"),
   ("AGENT_ENGINE_RESOURCE_NAME", "projects/123/locations/us-central1/reasoningEngines/9"),
   ("GOOGLE_CLOUD_LOCATION", "us-central1")]

/-- Manager state for the demonstration store. -/
def demoSt : MState := ⟨[], demoEnv⟩

/-- The demonstration store after a successful link of agent `abc`. -/
def demoLinkedSt : MState :=
  ⟨["AGENTSPACE_AGENT_ID=abc"], demoEnv ++ [("AGENTSPACE_AGENT_ID", "abc")]⟩

/-- A store whose only binding is a linked agent id (all required keys absent). -/
def onlyLinkedSt : MState := ⟨[], [("AGENTSPACE_AGENT_ID", "abc")]⟩

/-! ## C1 -/

/-- C1, counterexample: with all preconditions passing and an HTTP 200 response
whose `name` is `"agents/"` (so its trailing path segment is the empty string),
`link_agent` returns success yet persists nothing: the store still has no
`AGENTSPACE_AGENT_ID` at all, contradicting the claim that every such
invocation persists the extracted trailing segment under that key. -/
theorem C1_cex_success_without_persist :
    (validateEnvironment demoSt.env).1 = true ∧
    truthy (envGet demoSt.env "AGENTSPACE_AGENT_ID") = false ∧
    (linkAgent demoSt none none none (some ⟨200, "agents/"⟩)).outcome = .success ∧
    (linkAgent demoSt none none none (some ⟨200, "agents/"⟩)).state.fileLines = [] ∧
    envGet (linkAgent demoSt none none none (some ⟨200, "agents/"⟩)).state.env
      "AGENTSPACE_AGENT_ID" = none ∧
    lookupLine "AGENTSPACE_AGENT_ID"
      (linkAgent demoSt none none none (some ⟨200, "agents/"⟩)).state.fileLines = none := by
  decide

/-- C1 (amended): for every link invocation that passes the precondition checks
and receives an HTTP 200 response whose `name` field has a non-empty trailing
path segment, `link` extracts that trailing segment as the new agent id,
persists it under `AGENTSPACE_AGENT_ID` (both in the persisted file and in the
in-memory snapshot), and returns success. -/
theorem C1_link_persists_trailing_segment (st : MState) (dn ds td : Option String)
    (n : String)
    (hvalid : (validateEnvironment st.env).1 = true)
    (hnl : truthy (envGet st.env "AGENTSPACE_AGENT_ID") = false)
    (hseg : lastSeg n ≠ "") :
    (linkAgent st dn ds td (some ⟨200, n⟩)).outcome = .success ∧
    lookupLine "AGENTSPACE_AGENT_ID"
      (linkAgent st dn ds td (some ⟨200, n⟩)).state.fileLines = some (lastSeg n) ∧
    envGet (linkAgent st dn ds td (some ⟨200, n⟩)).state.env "AGENTSPACE_AGENT_ID" =
      some (lastSeg n) := by
  rw [linkAgent_200_eq st dn ds td n hvalid hnl hseg]
  refine ⟨rfl, ?_, ?_⟩
  · exact lookupLine_update_self _ _ _ (by decide)
  · exact envGet_set_self _ _ _

/-- C1 witness: a successful link whose returned registry name is
`.../agents/abc123` stores exactly `abc123` under `AGENTSPACE_AGENT_ID`. -/
theorem C1_witness :
    (validateEnvironment demoSt.env).1 = true ∧
    truthy (envGet demoSt.env "AGENTSPACE_AGENT_ID") = false ∧
    lastSeg ".../agents/abc123" ≠ "" ∧
    ((linkAgent demoSt none none none (some ⟨200, ".../agents/abc123"⟩)).outcome = .success ∧
     lookupLine "AGENTSPACE_AGENT_ID"
       (linkAgent demoSt none none none (some ⟨200, ".../agents/abc123"⟩)).state.fileLines =
       some (lastSeg ".../agents/abc123") ∧
     envGet (linkAgent demoSt none none none
       (some ⟨200, ".../agents/abc123"⟩)).state.env "AGENTSPACE_AGENT_ID" =
       some (lastSeg ".../agents/abc123")) ∧
    lastSeg ".../agents/abc123" = "abc123" :=
  ⟨by decide, by decide, by decide,
   C1_link_persists_trailing_segment demoSt none none none ".../agents/abc123"
     (by decide) (by decide) (by decide),
   by decide⟩

/-! ## C2 -/

/-- C2, counterexample: in a store where `AGENTSPACE_AGENT_ID` is set but the
required variables are missing, `link` fails with the configuration error (the
validation check runs first), not with the already-linked error — refuting "for
every configuration store in which AGENTSPACE_AGENT_ID is set, link fails with
AlreadyLinkedError". -/
theorem C2_cex_config_error_precedes :
    truthy (envGet onlyLinkedSt.env "AGENTSPACE_AGENT_ID") = true ∧
    (linkAgent onlyLinkedSt none none none none).outcome = .configError requiredVars ∧
    (linkAgent onlyLinkedSt none none none none).outcome ≠ .alreadyLinked := by
  decide

/-- C2 (amended): (1) in every configuration store that passes validation and
has `AGENTSPACE_AGENT_ID` set (non-empty), `link` fails with the already-linked
error, issues no HTTP request, and leaves the state unchanged, regardless of
the network; (2) after a successful `link` that stored a non-empty agent id, an
immediately following `link` (no intervening unlink) fails that way. -/
theorem C2_link_when_linked :
    (∀ (st : MState) (dn ds td : Option String) (net : Option HttpResponse),
      (validateEnvironment st.env).1 = true →
      truthy (envGet st.env "AGENTSPACE_AGENT_ID") = true →
      linkAgent st dn ds td net = ⟨.alreadyLinked, st, []⟩) ∧
    (∀ (st : MState) (dn ds td dn' ds' td' : Option String) (n : String)
      (net' : Option HttpResponse),
      (validateEnvironment st.env).1 = true →
      truthy (envGet st.env "AGENTSPACE_AGENT_ID") = false →
      lastSeg n ≠ "" →
      (linkAgent st dn ds td (some ⟨200, n⟩)).outcome = .success ∧
      linkAgent (linkAgent st dn ds td (some ⟨200, n⟩)).state dn' ds' td' net' =
        ⟨.alreadyLinked, (linkAgent st dn ds td (some ⟨200, n⟩)).state, []⟩) := by
  have part1 : ∀ (st : MState) (dn ds td : Option String) (net : Option HttpResponse),
      (validateEnvironment st.env).1 = true →
      truthy (envGet st.env "AGENTSPACE_AGENT_ID") = true →
      linkAgent st dn ds td net = ⟨.alreadyLinked, st, []⟩ := by
    intro st dn ds td net hv ht
    unfold linkAgent
    rw [hv, ht]
    simp
  refine ⟨part1, ?_⟩
  intro st dn ds td dn' ds' td' n net' hv hnl hseg
  rw [linkAgent_200_eq st dn ds td n hv hnl hseg]
  refine ⟨rfl, ?_⟩
  apply part1
  · show (validateEnvironment
      (envSet (applyAll st.env dn ds td) "AGENTSPACE_AGENT_ID" (lastSeg n))).1 = true
    rw [validate_link_state]
    exact hv
  · show truthy (envGet
      (envSet (applyAll st.env dn ds td) "AGENTSPACE_AGENT_ID" (lastSeg n))
      "AGENTSPACE_AGENT_ID") = true
    rw [envGet_set_self]
    simp [truthy, hseg]

/-- C2 witness: both parts of the amended statement at concrete inputs. -/
theorem C2_witness :
    ((validateEnvironment demoLinkedSt.env).1 = true ∧
     truthy (envGet demoLinkedSt.env "AGENTSPACE_AGENT_ID") = true ∧
     linkAgent demoLinkedSt none none none none = ⟨.alreadyLinked, demoLinkedSt, []⟩) ∧
    ((linkAgent demoSt none none none (some ⟨200, "x/y"⟩)).outcome = .success ∧
     linkAgent (linkAgent demoSt none none none (some ⟨200, "x/y"⟩)).state
       none none none none =
       ⟨.alreadyLinked, (linkAgent demoSt none none none (some ⟨200, "x/y"⟩)).state, []⟩) :=
  ⟨⟨by decide, by decide,
    C2_link_when_linked.1 demoLinkedSt none none none none (by decide) (by decide)⟩,
   C2_link_when_linked.2 demoSt none none none none none none "x/y" none
     (by decide) (by decide) (by decide)⟩

/-! ## C3 -/

/-- C3: for every configuration store missing at least one required variable
(absent or empty), both `link` and `verify` fail with the configuration error
naming exactly the missing keys, attempt no network call, and change no state. -/
theorem C3_missing_vars_short_circuit (st : MState) (dn ds td : Option String)
    (net net' : Option HttpResponse)
    (h : ∃ k ∈ requiredVars, truthy (envGet st.env k) = false) :
    linkAgent st dn ds td net = ⟨.configError (validateEnvironment st.env).2, st, []⟩ ∧
    verifyAgent st net' = ⟨.configError (validateEnvironment st.env).2, st, []⟩ ∧
    (∀ k, k ∈ (validateEnvironment st.env).2 ↔
      (k ∈ requiredVars ∧ truthy (envGet st.env k) = false)) := by
  have hvalid : (validateEnvironment st.env).1 = false := by
    obtain ⟨k, hk, hkf⟩ := h
    show (requiredVars.filter (fun v => !truthy (envGet st.env v))).isEmpty = false
    have hmem : k ∈ requiredVars.filter (fun v => !truthy (envGet st.env v)) :=
      List.mem_filter.mpr ⟨hk, by simp [hkf]⟩
    cases hfe : requiredVars.filter (fun v => !truthy (envGet st.env v)) with
    | nil => rw [hfe] at hmem; exact absurd hmem (List.not_mem_nil k)
    | cons a l => rfl
  refine ⟨?_, ?_, ?_⟩
  · unfold linkAgent
    rw [hvalid]
    simp
  · unfold verifyAgent
    rw [hvalid]
    simp
  · intro k
    show k ∈ requiredVars.filter (fun v => !truthy (envGet st.env v)) ↔ _
    rw [List.mem_filter]
    simp

/-- C3 witness: a store with only `GOOGLE_CLOUD_PROJECT` present. -/
theorem C3_witness :
    (∃ k ∈ requiredVars,
      truthy (envGet (MState.mk ["GOOGLE_CLOUD_PROJECT=p"]
        [("GOOGLE_CLOUD_PROJECT", "p")]).env k) = false) ∧
    linkAgent (MState.mk ["GOOGLE_CLOUD_PROJECT=p"] [("GOOGLE_CLOUD_PROJECT", "p")])
        none none none none =
      ⟨.configError ["GCP_PROJECT_NUMBER", "AGENTSPACE_APP_ID",
        "AGENT_ENGINE_RESOURCE_NAME", "GOOGLE_CLOUD_LOCATION"],
       MState.mk ["GOOGLE_CLOUD_PROJECT=p"] [("GOOGLE_CLOUD_PROJECT", "p")], []⟩ :=
  ⟨⟨"GCP_PROJECT_NUMBER", by decide, by decide⟩, by
    have h := C3_missing_vars_short_circuit
      (MState.mk ["GOOGLE_CLOUD_PROJECT=p"] [("GOOGLE_CLOUD_PROJECT", "p")])
      none none none none none ⟨"GCP_PROJECT_NUMBER", by decide, by decide⟩
    rw [h.1]
    decide⟩

/-! ## C4 -/

/-- C4: for every `unlink` invocation that proceeds to the network call (agent
id set, confirmation obtained or forced): on HTTP 200 or 204 it returns success
and sets `AGENTSPACE_AGENT_ID` to the empty string in the persisted store while
retaining the key; on any other delivered status, or on transport failure, it
returns failure and leaves the state entirely unchanged. -/
theorem C4_unlink_network_outcomes (st : MState) (force confirm : Bool)
    (net : Option HttpResponse)
    (hlinked : truthy (envGet st.env "AGENTSPACE_AGENT_ID") = true)
    (hproceed : force = true ∨ confirm = true) :
    (∀ r : HttpResponse, makeRequest net = some r → (r.status = 200 ∨ r.status = 204) →
      (unlinkAgent st force confirm net).outcome = .success ∧
      (unlinkAgent st force confirm net).state = updateEnvVar st "AGENTSPACE_AGENT_ID" "" ∧
      lookupLine "AGENTSPACE_AGENT_ID"
        (unlinkAgent st force confirm net).state.fileLines = some "" ∧
      envGet (unlinkAgent st force confirm net).state.env "AGENTSPACE_AGENT_ID" =
        some "") ∧
    (∀ r : HttpResponse, makeRequest net = some r → r.status ≠ 200 → r.status ≠ 204 →
      (unlinkAgent st force confirm net).outcome = .requestFailed ∧
      (unlinkAgent st force confirm net).state = st) ∧
    (makeRequest net = none →
      (unlinkAgent st force confirm net).outcome = .requestFailed ∧
      (unlinkAgent st force confirm net).state = st) := by
  have hA : ((envGet st.env "AGENTSPACE_AGENT_ID").getD "" == "") = false :=
    getD_beq_of_truthy _ hlinked
  have hguard : (!force && !confirm) = false := by
    rcases hproceed with h | h <;> simp [h]
  refine ⟨?_, ?_, ?_⟩
  · intro r hr hst
    have hok : (r.status == 200 || r.status == 204) = true := by
      rcases hst with h | h <;> simp [h]
    have heq : unlinkAgent st force confirm net =
        ⟨.success, updateEnvVar st "AGENTSPACE_AGENT_ID" "",
         [("DELETE", getAgentApiUrl st.env
           (some ((envGet st.env "AGENTSPACE_AGENT_ID").getD "")))]⟩ := by
      simp only [unlinkAgent]
      rw [hA, hguard, hr]
      simp [hok]
    rw [heq]
    refine ⟨rfl, rfl, ?_, ?_⟩
    · exact lookupLine_update_self "AGENTSPACE_AGENT_ID" "" st.fileLines (by decide)
    · exact envGet_set_self st.env "AGENTSPACE_AGENT_ID" ""
  · intro r hr h200 h204
    have hok : (r.status == 200 || r.status == 204) = false := by
      simp [h200, h204]
    have heq : unlinkAgent st force confirm net =
        ⟨.requestFailed, st,
         [("DELETE", getAgentApiUrl st.env
           (some ((envGet st.env "AGENTSPACE_AGENT_ID").getD "")))]⟩ := by
      simp only [unlinkAgent]
      rw [hA, hguard, hr]
      simp [hok]
    rw [heq]
    exact ⟨rfl, rfl⟩
  · intro hr
    have heq : unlinkAgent st force confirm net =
        ⟨.requestFailed, st,
         [("DELETE", getAgentApiUrl st.env
           (some ((envGet st.env "AGENTSPACE_AGENT_ID").getD "")))]⟩ := by
      simp only [unlinkAgent]
      rw [hA, hguard, hr]
      simp
    rw [heq]
    exact ⟨rfl, rfl⟩

/-- C4 witness: forced unlink of the linked demonstration store against a 204
response clears the id; with the key retained in the file. -/
theorem C4_witness :
    (truthy (envGet demoLinkedSt.env "AGENTSPACE_AGENT_ID") = true ∧
     makeRequest (some ⟨204, ""⟩) = some ⟨204, ""⟩) ∧
    ((unlinkAgent demoLinkedSt true false (some ⟨204, ""⟩)).outcome = .success ∧
     (unlinkAgent demoLinkedSt true false (some ⟨204, ""⟩)).state =
       updateEnvVar demoLinkedSt "AGENTSPACE_AGENT_ID" "" ∧
     lookupLine "AGENTSPACE_AGENT_ID"
       (unlinkAgent demoLinkedSt true false (some ⟨204, ""⟩)).state.fileLines = some "" ∧
     envGet (unlinkAgent demoLinkedSt true false
       (some ⟨204, ""⟩)).state.env "AGENTSPACE_AGENT_ID" = some "") :=
  ⟨⟨by decide, by decide⟩,
   (C4_unlink_network_outcomes demoLinkedSt true false (some ⟨204, ""⟩)
     (by decide) (Or.inl rfl)).1 ⟨204, ""⟩ (by decide) (Or.inr rfl)⟩

/-! ## C5 -/

/-- C5: for every configuration file, updating key `k` either rewrites exactly
the first line binding `k` in place — preserving every other line verbatim and
in its original order (`List.set`) — or, when no line binds `k`, appends
exactly one new `KEY=VALUE` line at the end. -/
theorem C5_update_file_shape (k v : String) (ls : List String) :
    (ls.findIdx? (lineKeyMatches k) = none →
      updateLines k v ls = ls ++ [k ++ "=" ++ v]) ∧
    (∀ i, ls.findIdx? (lineKeyMatches k) = some i →
      updateLines k v ls = ls.set i (k ++ "=" ++ v)) := by
  induction ls with
  | nil =>
    refine ⟨fun _ => rfl, fun i h => ?_⟩
    rw [List.findIdx?_nil] at h
    exact absurd h (by simp)
  | cons l t ih =>
    cases hm : lineKeyMatches k l with
    | true =>
      refine ⟨fun h => ?_, fun i h => ?_⟩
      · rw [List.findIdx?_cons, hm] at h
        simp at h
      · rw [List.findIdx?_cons, hm] at h
        simp at h
        rw [← h]
        unfold updateLines
        rw [hm]
        simp
    | false =>
      refine ⟨fun h => ?_, fun i h => ?_⟩
      · rw [List.findIdx?_cons, hm] at h
        simp only [Bool.false_eq_true, if_false, List.findIdx?_succ] at h
        have ht : t.findIdx? (lineKeyMatches k) = none := by
          cases hfe : t.findIdx? (lineKeyMatches k) with
          | none => rfl
          | some j => rw [hfe] at h; simp at h
        unfold updateLines
        rw [hm]
        simp [ih.1 ht]
      · rw [List.findIdx?_cons, hm] at h
        simp only [Bool.false_eq_true, if_false, List.findIdx?_succ] at h
        cases hfe : t.findIdx? (lineKeyMatches k) with
        | none => rw [hfe] at h; simp at h
        | some j =>
          rw [hfe] at h
          have hij : i = j + 1 := by
            simp at h
            omega
          rw [hij]
          unfold updateLines
          rw [hm]
          simp [ih.2 j hfe]

/-- C5 witness: a file with a comment, a blank line and two bindings; updating
an existing key rewrites only its line, updating a fresh key appends one. -/
theorem C5_witness :
    (["# comment", "", "A=1", "B=2"].findIdx? (lineKeyMatches "B") = some 3 ∧
     updateLines "B" "9" ["# comment", "", "A=1", "B=2"] =
       ["# comment", "", "A=1", "B=2"].set 3 ("B" ++ "=" ++ "9")) ∧
    (["# comment", "", "A=1", "B=2"].findIdx? (lineKeyMatches "C") = none ∧
     updateLines "C" "3" ["# comment", "", "A=1", "B=2"] =
       ["# comment", "", "A=1", "B=2"] ++ ["C" ++ "=" ++ "3"]) :=
  ⟨⟨by decide, (C5_update_file_shape "B" "9" ["# comment", "", "A=1", "B=2"]).2 3 (by decide)⟩,
   ⟨by decide, (C5_update_file_shape "C" "3" ["# comment", "", "A=1", "B=2"]).1 (by decide)⟩⟩

/-! ## C6 -/

/-- C6: `unlink` is idempotent at the unlinked state — with `AGENTSPACE_AGENT_ID`
unset or empty it returns success with no network call, prompt, or state
change; and after any successful `unlink`, a second `unlink` again returns
success, issues no request, and `AGENTSPACE_AGENT_ID` stays empty. -/
theorem C6_unlink_idempotent :
    (∀ (st : MState) (f c : Bool) (net : Option HttpResponse),
      truthy (envGet st.env "AGENTSPACE_AGENT_ID") = false →
      unlinkAgent st f c net = ⟨.notLinked, st, []⟩) ∧
    (∀ (st : MState) (f c : Bool) (net : Option HttpResponse)
      (f' c' : Bool) (net' : Option HttpResponse),
      unlinkOk (unlinkAgent st f c net).outcome = true →
      truthy (envGet (unlinkAgent st f c net).state.env "AGENTSPACE_AGENT_ID") = false ∧
      unlinkAgent (unlinkAgent st f c net).state f' c' net' =
        ⟨.notLinked, (unlinkAgent st f c net).state, []⟩) := by
  have part1 : ∀ (st : MState) (f c : Bool) (net : Option HttpResponse),
      truthy (envGet st.env "AGENTSPACE_AGENT_ID") = false →
      unlinkAgent st f c net = ⟨.notLinked, st, []⟩ := by
    intro st f c net h
    have hA : ((envGet st.env "AGENTSPACE_AGENT_ID").getD "" == "") = true := by
      rw [truthy_eq_false_iff] at h
      simp [h]
    simp only [unlinkAgent]
    rw [hA]
    simp
  have empty_after : ∀ (st : MState) (f c : Bool) (net : Option HttpResponse),
      unlinkOk (unlinkAgent st f c net).outcome = true →
      truthy (envGet (unlinkAgent st f c net).state.env "AGENTSPACE_AGENT_ID") = false := by
    intro st f c net hok
    cases hA : (envGet st.env "AGENTSPACE_AGENT_ID").getD "" == "" with
    | true =>
      have h0 : truthy (envGet st.env "AGENTSPACE_AGENT_ID") = false := by
        rw [truthy_eq_false_iff]
        exact eq_of_beq hA
      rw [part1 st f c net h0]
      exact h0
    | false =>
      cases hg : !f && !c with
      | true =>
        have : unlinkAgent st f c net = ⟨.cancelled, st, []⟩ := by
          simp only [unlinkAgent]
          rw [hA, hg]
          simp
        rw [this] at hok
        exact absurd hok (by simp [unlinkOk])
      | false =>
        cases hr : makeRequest net with
        | none =>
          have : unlinkAgent st f c net = ⟨.requestFailed, st,
              [("DELETE", getAgentApiUrl st.env
                (some ((envGet st.env "AGENTSPACE_AGENT_ID").getD "")))]⟩ := by
            simp only [unlinkAgent]
            rw [hA, hg, hr]
            simp
          rw [this] at hok
          exact absurd hok (by simp [unlinkOk])
        | some r =>
          cases hok2 : r.status == 200 || r.status == 204 with
          | true =>
            have : (unlinkAgent st f c net).state =
                updateEnvVar st "AGENTSPACE_AGENT_ID" "" := by
              simp only [unlinkAgent]
              rw [hA, hg, hr]
              simp [hok2]
            rw [this]
            show truthy (envGet (envSet st.env "AGENTSPACE_AGENT_ID" "")
              "AGENTSPACE_AGENT_ID") = false
            rw [envGet_set_self]
            simp [truthy]
          | false =>
            have : unlinkAgent st f c net = ⟨.requestFailed, st,
                [("DELETE", getAgentApiUrl st.env
                  (some ((envGet st.env "AGENTSPACE_AGENT_ID").getD "")))]⟩ := by
              simp only [unlinkAgent]
              rw [hA, hg, hr]
              simp [hok2]
            rw [this] at hok
            exact absurd hok (by simp [unlinkOk])
  refine ⟨part1, fun st f c net f' c' net' hok => ?_⟩
  have he := empty_after st f c net hok
  exact ⟨he, part1 _ f' c' net' he⟩

/-- C6 witness: both parts at concrete inputs — a store with an empty agent id,
and a successful forced unlink followed by a second unlink. -/
theorem C6_witness :
    (truthy (envGet (MState.mk [] [("AGENTSPACE_AGENT_ID", "")]).env
       "AGENTSPACE_AGENT_ID") = false ∧
     unlinkAgent (MState.mk [] [("AGENTSPACE_AGENT_ID", "")]) false false none =
       ⟨.notLinked, MState.mk [] [("AGENTSPACE_AGENT_ID", "")], []⟩) ∧
    (unlinkOk (unlinkAgent demoLinkedSt true false (some ⟨200, ""⟩)).outcome = true ∧
     truthy (envGet (unlinkAgent demoLinkedSt true false
       (some ⟨200, ""⟩)).state.env "AGENTSPACE_AGENT_ID") = false ∧
     unlinkAgent (unlinkAgent demoLinkedSt true false (some ⟨200, ""⟩)).state
         true false none =
       ⟨.notLinked, (unlinkAgent demoLinkedSt true false (some ⟨200, ""⟩)).state, []⟩) :=
  ⟨⟨by decide,
    C6_unlink_idempotent.1 (MState.mk [] [("AGENTSPACE_AGENT_ID", "")])
      false false none (by decide)⟩,
   ⟨by decide,
    (C6_unlink_idempotent.2 demoLinkedSt true false (some ⟨200, ""⟩)
      true false none (by decide)).1,
    (C6_unlink_idempotent.2 demoLinkedSt true false (some ⟨200, ""⟩)
      true false none (by decide)).2⟩⟩

/-! ## C7 -/

/-- C7, counterexample: with `GOOGLE_CLOUD_PROJECT` and `AGENTSPACE_APP_ID`
missing, `display_url` fails (`none`, the "Cannot generate URL" path), yet the
`url` subcommand still exits 0 — it never raises the exit-1 error that the
claim requires for this failure. -/
theorem C7_cex_url_exit_zero :
    displayUrl (MState.mk [] []) = none ∧ urlCommand (MState.mk [] []) = 0 := by
  decide

/-- C7 (amended): the `link`, `unlink` and `verify` subcommands exit 0 exactly
on a successful operation (for `unlink`, also on the already-unlinked no-op,
which returns success) and 1 otherwise; the `url` subcommand always exits 0,
even when `display_url` cannot generate a URL. -/
theorem C7_cli_exit_codes :
    (∀ (st : MState) (dn ds td : Option String) (net : Option HttpResponse),
      (linkCommand st dn ds td net = 0 ↔
        (linkAgent st dn ds td net).outcome = .success) ∧
      (linkCommand st dn ds td net = 0 ∨ linkCommand st dn ds td net = 1)) ∧
    (∀ (st : MState) (f c : Bool) (net : Option HttpResponse),
      (unlinkCommand st f c net = 0 ↔
        ((unlinkAgent st f c net).outcome = .success ∨
         (unlinkAgent st f c net).outcome = .notLinked)) ∧
      (unlinkCommand st f c net = 0 ∨ unlinkCommand st f c net = 1)) ∧
    (∀ (st : MState) (net : Option HttpResponse),
      (verifyCommand st net = 0 ↔ (verifyAgent st net).outcome = .success) ∧
      (verifyCommand st net = 0 ∨ verifyCommand st net = 1)) ∧
    (∀ st : MState, urlCommand st = 0) := by
  refine ⟨?_, ?_, ?_, fun st => rfl⟩
  · intro st dn ds td net
    unfold linkCommand
    cases h : (linkAgent st dn ds td net).outcome <;> simp [linkOk]
  · intro st f c net
    unfold unlinkCommand
    cases h : (unlinkAgent st f c net).outcome <;> simp [unlinkOk]
  · intro st net
    unfold verifyCommand
    cases h : (verifyAgent st net).outcome <;> simp [verifyOk]

/-! ## C8 -/

/-- C8: the registry endpoint URL is exactly the fixed base followed by
`projects/{GCP_PROJECT_NUMBER}/locations/global/collections/{collection}/engines/{AGENTSPACE_APP_ID}/assistants/{assistant}/agents`,
with `/{agent_id}` appended only for a non-empty supplied agent id, and with
`default_collection` / `default_assistant` used when the two optional keys are
unset. -/
theorem C8_api_url_shape (e : Env) (pn app : String)
    (hpn : envGet e "GCP_PROJECT_NUMBER" = some pn)
    (happ : envGet e "AGENTSPACE_APP_ID" = some app) :
    DISCOVERY_ENGINE_API_BASE = "https://discoveryengine.googleapis.com/v1alpha" ∧
    (∀ coll asst : String,
      envGet e "AGENTSPACE_COLLECTION" = some coll →
      envGet e "AGENTSPACE_ASSISTANT" = some asst →
      getAgentApiUrl e none =
        DISCOVERY_ENGINE_API_BASE ++ "/projects/" ++ pn ++
          "/locations/global/collections/" ++ coll ++ "/engines/" ++ app ++
          "/assistants/" ++ asst ++ "/agents") ∧
    (envGet e "AGENTSPACE_COLLECTION" = none →
      envGet e "AGENTSPACE_ASSISTANT" = none →
      getAgentApiUrl e none =
        DISCOVERY_ENGINE_API_BASE ++ "/projects/" ++ pn ++
          "/locations/global/collections/" ++ "default_collection" ++ "/engines/" ++ app ++
          "/assistants/" ++ "default_assistant" ++ "/agents") ∧
    (∀ aid : String, aid ≠ "" →
      getAgentApiUrl e (some aid) = getAgentApiUrl e none ++ "/" ++ aid) ∧
    getAgentApiUrl e (some "") = getAgentApiUrl e none := by
  refine ⟨rfl, ?_, ?_, ?_, ?_⟩
  · intro coll asst hc ha
    simp only [getAgentApiUrl]
    rw [hpn, happ, hc, ha]
    simp [truthy]
  · intro hc ha
    simp only [getAgentApiUrl]
    rw [hpn, happ, hc, ha]
    simp [truthy]
  · intro aid haid
    simp only [getAgentApiUrl]
    simp [truthy, haid]
  · simp only [getAgentApiUrl]
    simp [truthy]

/-- C8 witness: the URL for the demonstration store, with and without an agent
id. -/
theorem C8_witness :
    envGet demoSt.env "GCP_PROJECT_NUMBER" = some "123" ∧
    envGet demoSt.env "AGENTSPACE_APP_ID" = some "app1" ∧
    envGet demoSt.env "AGENTSPACE_COLLECTION" = none ∧
    envGet demoSt.env "AGENTSPACE_ASSISTANT" = none ∧
    (getAgentApiUrl demoSt.env none =
      DISCOVERY_ENGINE_API_BASE ++ "/projects/" ++ "123" ++
        "/locations/global/collections/" ++ "default_collection" ++ "/engines/" ++ "app1" ++
        "/assistants/" ++ "default_assistant" ++ "/agents") ∧
    getAgentApiUrl demoSt.env (some "abc") = getAgentApiUrl demoSt.env none ++ "/" ++ "abc" :=
  ⟨by decide, by decide, by decide, by decide,
   (C8_api_url_shape demoSt.env "123" "app1" (by decide) (by decide)).2.2.1
     (by decide) (by decide),
   (C8_api_url_shape demoSt.env "123" "app1" (by decide) (by decide)).2.2.2.1
     "abc" (by decide)⟩

/-! ## C9 -/

/-- Frame fact: the file lines after `link_agent` are either unchanged or the
result of updating `AGENTSPACE_AGENT_ID`. -/
theorem linkAgent_frame (st : MState) (dn ds td : Option String)
    (net : Option HttpResponse) :
    (linkAgent st dn ds td net).state.fileLines = st.fileLines ∨
    ∃ v, (linkAgent st dn ds td net).state.fileLines =
      updateLines "AGENTSPACE_AGENT_ID" v st.fileLines := by
  simp only [linkAgent]
  repeat' split
  all_goals first
    | exact Or.inl rfl
    | exact Or.inr ⟨_, rfl⟩

/-- Frame fact: the file lines after `unlink_agent` are either unchanged or the
result of clearing `AGENTSPACE_AGENT_ID`. -/
theorem unlinkAgent_frame (st : MState) (f c : Bool) (net : Option HttpResponse) :
    (unlinkAgent st f c net).state.fileLines = st.fileLines ∨
    (unlinkAgent st f c net).state.fileLines =
      updateLines "AGENTSPACE_AGENT_ID" "" st.fileLines := by
  simp only [unlinkAgent]
  repeat' split
  all_goals first
    | exact Or.inl rfl
    | exact Or.inr rfl

/-- Frame fact: `verify_agent` never changes the state. -/
theorem verifyAgent_state_eq (st : MState) (net : Option HttpResponse) :
    (verifyAgent st net).state = st := by
  simp only [verifyAgent]
  repeat' split
  all_goals rfl

/-- C9: the only persisted key any operation ever writes is
`AGENTSPACE_AGENT_ID`: `verify` and `display_url` leave the state untouched,
and `link`/`unlink` leave the stored value of every other key unchanged (the
display-name/description/tool-description overrides live only in the in-memory
snapshot). -/
theorem C9_only_agent_id_written (st : MState) (dn ds td : Option String)
    (net net' net'' : Option HttpResponse) (f c : Bool) (k : String)
    (hk : k ≠ "AGENTSPACE_AGENT_ID") :
    (verifyAgent st net'').state = st ∧
    (displayUrlSt st).2 = st ∧
    lookupLine k (linkAgent st dn ds td net).state.fileLines =
      lookupLine k st.fileLines ∧
    lookupLine k (unlinkAgent st f c net').state.fileLines =
      lookupLine k st.fileLines := by
  refine ⟨verifyAgent_state_eq st net'', rfl, ?_, ?_⟩
  · rcases linkAgent_frame st dn ds td net with h | ⟨v, h⟩
    · rw [h]
    · rw [h]
      exact lookupLine_update_ne _ k v st.fileLines (by decide) hk
  · rcases unlinkAgent_frame st f c net' with h | h
    · rw [h]
    · rw [h]
      exact lookupLine_update_ne _ k "" st.fileLines (by decide) hk

/-- C9 witness: the stored `GOOGLE_CLOUD_PROJECT` line survives a link, an
unlink, and a verify on the linked demonstration store. -/
theorem C9_witness :
    "GOOGLE_CLOUD_PROJECT" ≠ "AGENTSPACE_AGENT_ID" ∧
    ((verifyAgent demoLinkedSt (some ⟨200, ""⟩)).state = demoLinkedSt ∧
     (displayUrlSt demoLinkedSt).2 = demoLinkedSt ∧
     lookupLine "GOOGLE_CLOUD_PROJECT"
       (linkAgent demoLinkedSt none none none (some ⟨200, "a/b"⟩)).state.fileLines =
       lookupLine "GOOGLE_CLOUD_PROJECT" demoLinkedSt.fileLines ∧
     lookupLine "GOOGLE_CLOUD_PROJECT"
       (unlinkAgent demoLinkedSt true false (some ⟨200, ""⟩)).state.fileLines =
       lookupLine "GOOGLE_CLOUD_PROJECT" demoLinkedSt.fileLines) :=
  ⟨by decide,
   C9_only_agent_id_written demoLinkedSt none none none (some ⟨200, "a/b"⟩)
     (some ⟨200, ""⟩) (some ⟨200, ""⟩) true false "GOOGLE_CLOUD_PROJECT" (by decide)⟩

/-! ## C10 -/

/-- C10: when several lines bind the same key, updating that key rewrites only
the first such line (matched by comparing the stripped text before the first
`=`); every later duplicate is left verbatim, and a comment line never matches
even if it textually contains `KEY=`. -/
theorem C10_update_first_match_only (k v : String) (pre post : List String)
    (line : String)
    (hpre : ∀ l ∈ pre, lineKeyMatches k l = false)
    (hline : lineKeyMatches k line = true) :
    updateLines k v (pre ++ line :: post) = pre ++ (k ++ "=" ++ v) :: post ∧
    (∀ l : String, (pyStripChars l.data).head? = some '#' →
      lineKeyMatches k l = false) := by
  have main : ∀ pr : List String, (∀ l ∈ pr, lineKeyMatches k l = false) →
      updateLines k v (pr ++ line :: post) = pr ++ (k ++ "=" ++ v) :: post := by
    intro pr
    induction pr with
    | nil =>
      intro _
      simp only [List.nil_append]
      unfold updateLines
      rw [hline]
      simp
    | cons p t ih =>
      intro hpr
      have hp : lineKeyMatches k p = false := hpr p (List.mem_cons_self p t)
      simp only [List.cons_append]
      unfold updateLines
      rw [hp]
      simp only [Bool.false_eq_true, if_false]
      rw [ih (fun l hl => hpr l (List.mem_cons_of_mem p hl))]
  exact ⟨main pre hpre, fun l hl => lineKeyMatches_comment k l hl⟩

/-- C10 witness: a file with a comment containing `A=`, a different binding,
the first real `A` binding, a duplicate, and a trailing comment. -/
theorem C10_witness :
    (∀ l ∈ ["# A=0", "B=1"], lineKeyMatches "A" l = false) ∧
    lineKeyMatches "A" "A=1" = true ∧
    updateLines "A" "9" (["# A=0", "B=1"] ++ "A=1" :: ["A=2", "# A=3"]) =
      ["# A=0", "B=1"] ++ ("A" ++ "=" ++ "9") :: ["A=2", "# A=3"] ∧
    lineKeyMatches "A" "# A=3" = false :=
  ⟨by decide, by decide,
   (C10_update_first_match_only "A" "9" ["# A=0", "B=1"] ["A=2", "# A=3"] "A=1"
     (by decide) (by decide)).1,
   (C10_update_first_match_only "A" "9" ["# A=0", "B=1"] ["A=2", "# A=3"] "A=1"
     (by decide) (by decide)).2 "# A=3" (by decide)⟩

end GEM
